import Mathlib

/- Shallow embedding of `src/py/trackmarks/core/spatial.py`: the `Ellipse`
entity with its lazy polygon cache, and the `OptimalReprojector` (optimal-CRS
resolver, transformer-pair builder, and apply-in-optimal-frame pipeline).

Modelling conventions:
* Coordinates and magnitudes are rationals.
* The external geometry stack (shapely / GEOS, pyproj, pint) is embedded as
  follows.  The affine operations `shapely.affinity.scale` and
  `shapely.affinity.rotate` follow their documented coordinate formulas; the
  default `origin` of both is `'center'`, the center of the geometry's
  bounding box.  The transcendental ingredients — the unit-circle samples GEOS
  produces for `Point.buffer`, the cosine/sine (of an angle in degrees) used
  by `affinity.rotate`, and the pyproj forward/inverse projection maps — are
  collected in a `GeoLib` record of functions over which every definition is
  parametric; no settled claim depends on their concrete values.
* `pyproj.CRS` values are embedded symbolically by the way the source
  constructs them (`CRS.from_epsg(code)` versus a `+proj=utm +zone=...`
  string).  Two embedded CRS are equal iff they are the same construction,
  which agrees with pyproj definition equality on the constructions occurring
  in this source (an EPSG-defined CRS never equals a proj-string UTM CRS, and
  two `from_epsg` results are equal iff the codes are).
* A Python exception is an `Except.error`.  In particular, tuple-unpacking
  `None` (as `apply_geometry` does when `get_optimal_transformers` returns
  `None`) raises `TypeError`.
-/

/-- A 2D coordinate pair (shapely's x/longitude first, y/latitude second). -/
structure Point where
  x : ℚ
  y : ℚ
deriving DecidableEq

/-- A coordinate reference system, identified by how the source builds it:
`pyproj.CRS.from_epsg(code)` or `pyproj.CRS.from_string("+proj=utm +zone=Z +ellps=WGS84 +datum=WGS84 +units=m +no_defs")`. -/
inductive CRS where
  | fromEpsg (code : ℤ)
  | utmFromString (zone : ℤ)
deriving DecidableEq

/-- The transcendental parts of the external libraries, abstracted:
`circle n` is the list of unit-circle sample points GEOS uses for a point
buffer approximated with `n` segments; `cosd` / `sind` are cosine and sine of
an angle given in degrees; `proj a b` is the pyproj coordinate mapping from
CRS `a` to CRS `b` (with `always_xy=True` axis order). -/
structure GeoLib where
  circle : ℕ → List Point
  cosd : ℚ → ℚ
  sind : ℚ → ℚ
  proj : CRS → CRS → Point → Point

/-- Python exceptions raised by the embedded code paths. -/
inductive PyError where
  | typeError
deriving DecidableEq

/-- The shapely geometry variants this module actually handles: a point, or a
polygon given by its exterior ring. -/
inductive Geometry where
  | point (p : Point)
  | polygon (ring : List Point)
deriving DecidableEq

/-- The edges of a ring, with wrap-around from the last vertex to the first. -/
def ring_edges (ring : List Point) : List (Point × Point) :=
  match ring with
  | [] => []
  | a :: _ => ring.zip (ring.drop 1 ++ [a])

/-- Area-weighted polygon centroid, as shapely's `geometry.centroid` computes
it for a simple polygon from its exterior ring.  (A zero-area ring divides by
zero, which rational division maps to 0; shapely falls back to a
lower-dimensional centroid there.  No settled claim depends on that case.) -/
def shapely_centroid (ring : List Point) : Point :=
  let a2 := (ring_edges ring).foldl
    (fun acc e => acc + (e.1.x * e.2.y - e.2.x * e.1.y)) 0
  let cx := (ring_edges ring).foldl
    (fun acc e => acc + (e.1.x + e.2.x) * (e.1.x * e.2.y - e.2.x * e.1.y)) 0
  let cy := (ring_edges ring).foldl
    (fun acc e => acc + (e.1.y + e.2.y) * (e.1.x * e.2.y - e.2.x * e.1.y)) 0
  { x := cx / (3 * a2), y := cy / (3 * a2) }

/-- shapely's `geometry.centroid`: a point is its own centroid, a polygon has
the area-weighted centroid of its exterior ring. -/
def Geometry.centroid : Geometry → Point
  | Geometry.point p => p
  | Geometry.polygon ring => shapely_centroid ring

/-- Center of the bounding box of a vertex list: shapely's default
`origin='center'` for the affine operations. -/
def polyBoundsCenter (poly : List Point) : Point :=
  match poly with
  | [] => { x := 0, y := 0 }
  | p :: ps =>
    let minx := ps.foldl (fun a v => min a v.x) p.x
    let maxx := ps.foldl (fun a v => max a v.x) p.x
    let miny := ps.foldl (fun a v => min a v.y) p.y
    let maxy := ps.foldl (fun a v => max a v.y) p.y
    { x := (minx + maxx) / 2, y := (miny + maxy) / 2 }

/-- `shapely.affinity.scale(geom, xfact, yfact)` on a polygon's vertex list:
each vertex is scaled about the bounding-box center (the default origin),
`x ↦ ox + xfact * (x - ox)`, `y ↦ oy + yfact * (y - oy)`. -/
def affinity_scale (xfact yfact : ℚ) (poly : List Point) : List Point :=
  let o := polyBoundsCenter poly
  poly.map fun v => { x := o.x + xfact * (v.x - o.x), y := o.y + yfact * (v.y - o.y) }

/-- `shapely.affinity.rotate(geom, angle)` on a polygon's vertex list: the
documented counterclockwise rotation matrix for a positive `angle` in degrees,
about the bounding-box center (the default origin):
`x ↦ ox + cos·(x-ox) - sin·(y-oy)`, `y ↦ oy + sin·(x-ox) + cos·(y-oy)`. -/
def affinity_rotate (lib : GeoLib) (angle : ℚ) (poly : List Point) : List Point :=
  let o := polyBoundsCenter poly
  let c := lib.cosd angle
  let s := lib.sind angle
  poly.map fun v =>
    { x := o.x + c * (v.x - o.x) - s * (v.y - o.y),
      y := o.y + s * (v.x - o.x) + c * (v.y - o.y) }

/-- `point.buffer(radius, resolution=r)`: a polygon approximating the circle
of the given radius around the point, sampled with `4 * r` segments; the
sample layout is supplied by the abstract `lib.circle`. -/
def point_buffer (lib : GeoLib) (center : Point) (radius : ℚ) (resolution : ℤ) : List Point :=
  (lib.circle (4 * resolution).toNat).map
    fun u => { x := center.x + radius * u.x, y := center.y + radius * u.y }

/-- `shapely.ops.transform(f, geom)`: apply the coordinate mapping to every
vertex of the geometry. -/
def shapely_transform (f : Point → Point) : Geometry → Geometry
  | Geometry.point p => Geometry.point (f p)
  | Geometry.polygon ring => Geometry.polygon (ring.map f)

/-- A pint length unit accepted by the code paths under claim. -/
inductive LengthUnit where
  | meter
  | nautical_mile
deriving DecidableEq

/-- A pint `Quantity`: a scalar magnitude tagged with a length unit. -/
structure Quantity where
  magnitude : ℚ
  unit : LengthUnit
deriving DecidableEq

/-- Modelled from the spec: the repository's unit registry
(`trackmarks.core.unit_reg`, created in `trackmarks/core/__init__.py`, which
is not under `src/`) converts length quantities unit-safely with the spec's
conversion factor of exactly 1852 meters per nautical mile.  This embeds
`q.to(unit_reg.meter).magnitude`. -/
def Quantity.toMeters (q : Quantity) : ℚ :=
  match q.unit with
  | LengthUnit.meter => q.magnitude
  | LengthUnit.nautical_mile => q.magnitude * 1852

/-- `DEFAULT_ELLIPSE_RESOLUTION = 8` (spatial.py line 20). -/
def DEFAULT_ELLIPSE_RESOLUTION : ℤ := 8

/-- `DEFAULT_ELLIPSE_ORIENTATION = 0.0` (spatial.py line 21). -/
def DEFAULT_ELLIPSE_ORIENTATION : ℚ := 0

/-- `DEFAULT_EPSG_CRS = 4326` (spatial.py line 22). -/
def DEFAULT_EPSG_CRS : ℤ := 4326

/-- A `pyproj.Transformer` as built by `Transformer.from_crs(src, dst,
always_xy=True)`: the endpoint frames, the axis-order flag, and the
coordinate mapping. -/
structure Transformer where
  src : CRS
  dst : CRS
  always_xy : Bool
  transform : Point → Point

/-- `pyproj.Transformer.from_crs(crs_from, crs_to, always_xy)`. -/
def Transformer.from_crs (lib : GeoLib) (crs_from crs_to : CRS) (axy : Bool) : Transformer :=
  { src := crs_from, dst := crs_to, always_xy := axy, transform := lib.proj crs_from crs_to }

/-- `OptimalReprojector`: holds the input CRS (spatial.py lines 75-78). -/
structure OptimalReprojector where
  input_crs : CRS
deriving DecidableEq

/-- `OptimalReprojector.__init__`: `self.input_crs = pyproj.CRS.from_epsg(input_epsg)`. -/
def OptimalReprojector.init (input_epsg : ℤ) : OptimalReprojector :=
  { input_crs := CRS.fromEpsg input_epsg }

/-- Python `int(...)` applied to a real-valued quotient: truncation toward
zero. -/
def pyInt (q : ℚ) : ℤ := if 0 ≤ q then ⌊q⌋ else ⌈q⌉

/-- `OptimalReprojector._determine_optimal_crs` (spatial.py lines 79-106):
if `-80 < lat < 84`, the UTM CRS built from the proj string with zone
`int((lon + 180) / 6) + 1`; otherwise `pyproj.CRS.from_epsg(54032)`, the
World Azimuthal Equidistant fallback. -/
def OptimalReprojector._determine_optimal_crs
    (_self : OptimalReprojector) (point_4326 : Point) : CRS :=
  let lon := point_4326.x
  let lat := point_4326.y
  if -80 < lat ∧ lat < 84 then
    CRS.utmFromString (pyInt ((lon + 180) / 6) + 1)
  else
    CRS.fromEpsg 54032

/-- The representative anchor point the transformer-pair builder resolves
from: the geometry itself when it is a point, its centroid otherwise
(the inline `geom if isinstance(geom, geometry.Point) else geom.centroid`). -/
def anchor_point : Geometry → Point
  | Geometry.point p => p
  | g => Geometry.centroid g

/-- `OptimalReprojector.get_optimal_transformers` (spatial.py lines 122-143):
resolve the optimal CRS from the anchor point; if it equals the input CRS
return `None`, else return the forward and inverse transformers, both with
`always_xy=True`. -/
def OptimalReprojector.get_optimal_transformers
    (lib : GeoLib) (self : OptimalReprojector) (geom : Geometry) :
    Option (Transformer × Transformer) :=
  let optimal_crs := OptimalReprojector._determine_optimal_crs self
    (match geom with | Geometry.point p => p | g => Geometry.centroid g)
  if optimal_crs = self.input_crs then
    none
  else
    some (Transformer.from_crs lib self.input_crs optimal_crs true,
          Transformer.from_crs lib optimal_crs self.input_crs true)

/-- `OptimalReprojector.apply_geometry` (spatial.py lines 145-152):
`to_transformer, return_transformer = self.get_optimal_transformers(geom)` —
when the builder returns `None` this tuple-unpacking raises `TypeError`;
otherwise transform forward, apply `func`, transform back. -/
def OptimalReprojector.apply_geometry
    (lib : GeoLib) (self : OptimalReprojector) (geom : Geometry)
    (func : Geometry → Geometry) : Except PyError Geometry :=
  match OptimalReprojector.get_optimal_transformers lib self geom with
  | none => Except.error PyError.typeError
  | some (to_transformer, return_transformer) =>
    Except.ok (shapely_transform return_transformer.transform
      (func (shapely_transform to_transformer.transform geom)))

/-- `Ellipse` (spatial.py lines 24-41): centroid in EPSG:4326, semi-axes as
length quantities (the test suite passes pint nautical-mile quantities),
orientation in degrees, and the lazily populated `_ellipse` cache slot. -/
structure Ellipse where
  centroid : Point
  semi_major : Quantity
  semi_minor : Quantity
  orientation : ℚ
  _ellipse : Option Geometry
deriving DecidableEq

/-- `Ellipse._generate_utm_ellipse` (spatial.py lines 56-70): convert both
semi-axes to meters, buffer the projected centroid with radius 1 at the given
resolution, scale anisotropically by the axis lengths in meters, and rotate
by `orientation` only when it differs from `DEFAULT_ELLIPSE_ORIENTATION`. -/
def Ellipse._generate_utm_ellipse (lib : GeoLib) (centroid : Point)
    (semi_major semi_minor : Quantity) (orientation : ℚ) (resolution : ℤ) :
    List Point :=
  let major_meters := semi_major.toMeters
  let minor_meters := semi_minor.toMeters
  let ellipse := affinity_scale major_meters minor_meters
    (point_buffer lib centroid 1 resolution)
  if orientation = DEFAULT_ELLIPSE_ORIENTATION then ellipse
  else affinity_rotate lib orientation ellipse

/-- Adapter for passing `Ellipse._generate_utm_ellipse` as the `func` of
`apply_geometry`: the pipeline only ever reaches it with a point (the
transformed centroid), on which it builds the ellipse ring; the polygon
branch is unreachable on every path considered by the claims. -/
def Ellipse.utm_ellipse_op (lib : GeoLib) (semi_major semi_minor : Quantity)
    (orientation : ℚ) (resolution : ℤ) : Geometry → Geometry
  | Geometry.point p =>
    Geometry.polygon
      (Ellipse._generate_utm_ellipse lib p semi_major semi_minor orientation resolution)
  | g => g

/-- `Ellipse.generate_ellipse` (spatial.py lines 43-54): build a fresh
reprojector on EPSG:4326, run the UTM construction through
`apply_geometry` on the stored centroid and parameters, store the result in
the cache slot iff `cache` is true, and return it.  State passing makes the
field write explicit: the returned `Ellipse` is the post-call entity. -/
def Ellipse.generate_ellipse (lib : GeoLib) (self : Ellipse)
    (resolution : ℤ) (cache : Bool) : Except PyError (Geometry × Ellipse) :=
  match OptimalReprojector.apply_geometry lib
      (OptimalReprojector.init DEFAULT_EPSG_CRS) (Geometry.point self.centroid)
      (Ellipse.utm_ellipse_op lib self.semi_major self.semi_minor
        self.orientation resolution) with
  | Except.error er => Except.error er
  | Except.ok ellipse =>
    Except.ok (ellipse, if cache then { self with _ellipse := some ellipse } else self)

/-- The `Ellipse.ellipse` property (spatial.py lines 36-41): if the cache
slot is `None`, call `generate_ellipse(cache=True)` at the default
resolution; then return the cache slot of the (possibly updated) entity. -/
def Ellipse.ellipse (lib : GeoLib) (self : Ellipse) :
    Except PyError (Option Geometry × Ellipse) :=
  match self._ellipse with
  | some _ => Except.ok (self._ellipse, self)
  | none =>
    match Ellipse.generate_ellipse lib self DEFAULT_ELLIPSE_RESOLUTION true with
    | Except.error er => Except.error er
    | Except.ok (_, sNew) => Except.ok (sNew._ellipse, sNew)

/-- Modelled from the spec: the same ellipse construction with the rotation
step explicitly skipped (the comparison object of the vertex-for-vertex
claim about `orientation = 0`). -/
def generate_utm_ellipse_skip_rotation (lib : GeoLib) (centroid : Point)
    (semi_major semi_minor : Quantity) (resolution : ℤ) : List Point :=
  affinity_scale semi_major.toMeters semi_minor.toMeters
    (point_buffer lib centroid 1 resolution)

/-- Modelled from the spec: rotation of a polygon about its bounding-box
center by the angle whose cosine is `c` and sine is `s`, using the CLOCKWISE
convention the spec ascribes to the rotation step
(`x ↦ ox + c·(x-ox) + s·(y-oy)`, `y ↦ oy - s·(x-ox) + c·(y-oy)`). -/
def rotate_clockwise (c s : ℚ) (poly : List Point) : List Point :=
  let o := polyBoundsCenter poly
  poly.map fun v =>
    { x := o.x + c * (v.x - o.x) + s * (v.y - o.y),
      y := o.y - s * (v.x - o.x) + c * (v.y - o.y) }

/-- A concrete instantiation of the abstract library functions, used by the
closed witness and counterexample theorems: the circle samples are the four
axis points of the unit circle, the cosine/sine pair is the exact value at
90 degrees, and the projection maps are the identity. -/
def testLib : GeoLib :=
  { circle := fun _ => [{ x := 1, y := 0 }, { x := 0, y := 1 },
                        { x := -1, y := 0 }, { x := 0, y := -1 }],
    cosd := fun _ => 0,
    sind := fun _ => 1,
    proj := fun _ _ p => p }

/-- A concrete `Ellipse` entity mirroring the test suite's scenario shape
(semi-axes of 2 and 1 nautical miles), with an empty cache slot. -/
def testEllipse : Ellipse :=
  { centroid := { x := 0, y := 0 },
    semi_major := { magnitude := 2, unit := LengthUnit.nautical_mile },
    semi_minor := { magnitude := 1, unit := LengthUnit.nautical_mile },
    orientation := 0,
    _ellipse := none }

/-- The polygon `testEllipse.generate_ellipse testLib 8 false` computes:
the four unit-circle samples scaled by 3704 = 2 × 1852 meters on x and
1852 meters on y. -/
def testPolygon : Geometry :=
  Geometry.polygon [{ x := 3704, y := 0 }, { x := 0, y := 1852 },
                    { x := -3704, y := 0 }, { x := 0, y := -1852 }]

/-- The optimal CRS is never the EPSG:4326 input CRS: the resolver only
returns a proj-string UTM CRS or the EPSG:54032 fallback. -/
theorem determine_ne_epsg4326 (self : OptimalReprojector) (p : Point) :
    OptimalReprojector._determine_optimal_crs self p ≠ CRS.fromEpsg DEFAULT_EPSG_CRS := by
  simp only [OptimalReprojector._determine_optimal_crs, DEFAULT_EPSG_CRS]
  split <;> simp

/-- `generate_ellipse` always succeeds: the fresh reprojector's input CRS is
EPSG:4326, which the resolver never returns, so a transformer pair always
exists. -/
theorem generate_ellipse_isOk (lib : GeoLib) (e : Ellipse) (res : ℤ) (cache : Bool) :
    ∃ g e₂, Ellipse.generate_ellipse lib e res cache = Except.ok (g, e₂) := by
  unfold Ellipse.generate_ellipse OptimalReprojector.apply_geometry
    OptimalReprojector.get_optimal_transformers
  simp only [OptimalReprojector.init]
  rw [if_neg (determine_ne_epsg4326 _ e.centroid)]
  exact ⟨_, _, rfl⟩

/-- The post-call entity of `generate_ellipse`: the cache slot is replaced by
the fresh polygon iff `cache` is true, and nothing else changes. -/
theorem generate_ellipse_state (lib : GeoLib) (e : Ellipse) (res : ℤ)
    (cache : Bool) (g : Geometry) (e₂ : Ellipse)
    (h : Ellipse.generate_ellipse lib e res cache = Except.ok (g, e₂)) :
    e₂ = if cache then { e with _ellipse := some g } else e := by
  unfold Ellipse.generate_ellipse at h
  cases happ : OptimalReprojector.apply_geometry lib
      (OptimalReprojector.init DEFAULT_EPSG_CRS) (Geometry.point e.centroid)
      (Ellipse.utm_ellipse_op lib e.semi_major e.semi_minor e.orientation res) with
  | error er => rw [happ] at h; exact absurd h (by simp)
  | ok poly =>
    rw [happ] at h
    simp only [Except.ok.injEq, Prod.mk.injEq] at h
    obtain ⟨h1, h2⟩ := h
    rw [← h1]
    exact h2.symm

/-- C1: the claim says that when the resolved optimal frame equals the input
frame (so `get_optimal_transformers` returns no pair), `apply_geometry`
applies `operation` directly and returns its result unchanged.  The code
instead tuple-unpacks the returned `None`, which raises `TypeError`.  This
theorem evaluates the code at a failing input: a reprojector whose input CRS
is EPSG:54032 applied to a polar point (latitude 85), whose optimal frame is
exactly EPSG:54032, crashes instead of returning `id` of the point. -/
theorem C1_equal_frames_apply_geometry_raises :
    OptimalReprojector.apply_geometry testLib (OptimalReprojector.init 54032)
      (Geometry.point { x := 0, y := 85 }) id = Except.error PyError.typeError := by
  rfl

/-- C2: for latitude strictly between -80 and 84 (and longitude at least
-180, where Python's `int` truncation agrees with `floor`), the resolver
selects the proj-string UTM CRS with zone `⌊(lon + 180) / 6⌋ + 1`, which lies
in 1..60 whenever the longitude also lies below 180; for latitude ≤ -80 or
≥ 84 it selects the fixed EPSG:54032 World Azimuthal Equidistant fallback,
regardless of longitude. -/
theorem C2_crs_resolver_selection (self : OptimalReprojector) (lon lat : ℚ) :
    (-80 < lat → lat < 84 → -180 ≤ lon →
      OptimalReprojector._determine_optimal_crs self { x := lon, y := lat } =
          CRS.utmFromString (⌊(lon + 180) / 6⌋ + 1) ∧
        (lon < 180 → 1 ≤ ⌊(lon + 180) / 6⌋ + 1 ∧ ⌊(lon + 180) / 6⌋ + 1 ≤ 60)) ∧
    ((lat ≤ -80 ∨ 84 ≤ lat) →
      OptimalReprojector._determine_optimal_crs self { x := lon, y := lat } =
        CRS.fromEpsg 54032) := by
  constructor
  · intro h1 h2 h3
    have hq : (0 : ℚ) ≤ (lon + 180) / 6 := by
      apply div_nonneg _ (by norm_num)
      linarith
    constructor
    · simp only [OptimalReprojector._determine_optimal_crs, pyInt]
      rw [if_pos ⟨h1, h2⟩, if_pos hq]
    · intro h4
      have h0 : (0 : ℤ) ≤ ⌊(lon + 180) / 6⌋ := Int.floor_nonneg.mpr hq
      have h60 : ⌊(lon + 180) / 6⌋ < 60 := by
        rw [Int.floor_lt]
        rw [div_lt_iff₀ (by norm_num : (0 : ℚ) < 6)]
        push_cast
        linarith
      omega
  · intro h
    simp only [OptimalReprojector._determine_optimal_crs]
    rw [if_neg]
    rintro ⟨hA, hB⟩
    rcases h with h | h
    · linarith
    · linarith

/-- Witness for C2: longitude -180 at the equator resolves to UTM zone 1,
longitude 179.9 resolves to UTM zone 60, and latitude 85 resolves to the
EPSG:54032 fallback. -/
theorem C2_crs_resolver_selection_witness :
    OptimalReprojector._determine_optimal_crs (OptimalReprojector.init 4326)
        { x := -180, y := 0 } = CRS.utmFromString 1 ∧
    OptimalReprojector._determine_optimal_crs (OptimalReprojector.init 4326)
        { x := 1799 / 10, y := 0 } = CRS.utmFromString 60 ∧
    OptimalReprojector._determine_optimal_crs (OptimalReprojector.init 4326)
        { x := 0, y := 85 } = CRS.fromEpsg 54032 := by
  refine ⟨?_, ?_, (C2_crs_resolver_selection (OptimalReprojector.init 4326) 0 85).2
    (Or.inr (by norm_num))⟩
  · have h := ((C2_crs_resolver_selection (OptimalReprojector.init 4326) (-180) 0).1
      (by norm_num) (by norm_num) (by norm_num)).1
    rw [h]
    norm_num
  · have h := ((C2_crs_resolver_selection (OptimalReprojector.init 4326) (1799 / 10) 0).1
      (by norm_num) (by norm_num) (by norm_num)).1
    rw [h]
    have h59 : ⌊((1799 / 10 : ℚ) + 180) / 6⌋ = 59 := by
      rw [Int.floor_eq_iff]
      norm_num
    rw [h59]
    norm_num

/-- C3 counterexample: the claim says resolution 0 (or a negative value) and
a negative semi-axis fail with `InvalidParameterError` and construct no
polygon.  No such error class exists anywhere in the source and
`generate_ellipse` performs no validation: with `semi_major = -1` nautical
mile (and the default resolution) and likewise with `resolution = 0`, the
construction succeeds and returns a polygon. -/
theorem C3_invalid_parameters_accepted :
    (Ellipse.generate_ellipse testLib
      { centroid := { x := 0, y := 0 },
        semi_major := { magnitude := -1, unit := LengthUnit.nautical_mile },
        semi_minor := { magnitude := 1, unit := LengthUnit.nautical_mile },
        orientation := 0, _ellipse := none }
      DEFAULT_ELLIPSE_RESOLUTION false).isOk = true ∧
    (Ellipse.generate_ellipse testLib
      { centroid := { x := 0, y := 0 },
        semi_major := { magnitude := 1, unit := LengthUnit.nautical_mile },
        semi_minor := { magnitude := 1, unit := LengthUnit.nautical_mile },
        orientation := 0, _ellipse := none }
      0 false).isOk = true := by
  constructor <;> rfl

/-- C3 amended: ellipse construction performs no parameter validation at all
(`InvalidParameterError` does not exist in the code); for every entity,
every resolution — including 0 and negative values — and every semi-axis
magnitude — including negative distances — `generate_ellipse` succeeds and
returns a polygon (a negative axis merely mirrors the ring through the
negative scale factor; a non-positive resolution is passed through to the
buffer primitive unvalidated). -/
theorem C3_no_parameter_validation (lib : GeoLib) (e : Ellipse) (res : ℤ)
    (cache : Bool) :
    (Ellipse.generate_ellipse lib e res cache).isOk = true := by
  obtain ⟨g, e₂, h⟩ := generate_ellipse_isOk lib e res cache
  rw [h]
  rfl

/-- If the cache slot holds a polygon, the `ellipse` property returns it and
leaves the entity unchanged. -/
theorem ellipse_of_cached (lib : GeoLib) (e : Ellipse) (p : Geometry)
    (h : e._ellipse = some p) :
    Ellipse.ellipse lib e = Except.ok (some p, e) := by
  unfold Ellipse.ellipse
  rw [h]

/-- Whatever the `ellipse` property returns is exactly the cache slot of the
entity it returns, and that slot is populated. -/
theorem ellipse_ok_slot (lib : GeoLib) (e : Ellipse) (r : Option Geometry)
    (e₁ : Ellipse) (h : Ellipse.ellipse lib e = Except.ok (r, e₁)) :
    r = e₁._ellipse ∧ ∃ p, r = some p := by
  unfold Ellipse.ellipse at h
  cases hslot : e._ellipse with
  | some p =>
    rw [hslot] at h
    simp only [Except.ok.injEq, Prod.mk.injEq] at h
    obtain ⟨h1, h2⟩ := h
    subst h2
    exact ⟨h1.symm.trans hslot.symm, p, h1.symm⟩
  | none =>
    rw [hslot] at h
    simp only at h
    cases hg : Ellipse.generate_ellipse lib e DEFAULT_ELLIPSE_RESOLUTION true with
    | error er => rw [hg] at h; exact absurd h (by simp)
    | ok pr =>
      obtain ⟨g, s⟩ := pr
      rw [hg] at h
      simp only [Except.ok.injEq, Prod.mk.injEq] at h
      obtain ⟨h1, h2⟩ := h
      subst h2
      have hs := generate_ellipse_state lib e DEFAULT_ELLIPSE_RESOLUTION true g s hg
      simp only [if_pos] at hs
      subst hs
      exact ⟨h1.symm, g, h1.symm⟩

/-- C4: two successive `ellipse` property reads with no intervening persisted
regeneration return the same cached polygon and the same entity state; and a
first access on an empty cache slot invokes `generate_ellipse` with the
entity's stored parameters at the default resolution and `cache=True`,
stores the result in the slot, and returns exactly it. -/
theorem C4_lazy_cache (lib : GeoLib) (e : Ellipse) :
    (∀ r e₁, Ellipse.ellipse lib e = Except.ok (r, e₁) →
       Ellipse.ellipse lib e₁ = Except.ok (r, e₁)) ∧
    (e._ellipse = none →
       ∃ g e₁,
         Ellipse.generate_ellipse lib e DEFAULT_ELLIPSE_RESOLUTION true =
             Except.ok (g, e₁) ∧
           e₁ = { e with _ellipse := some g } ∧
           Ellipse.ellipse lib e = Except.ok (some g, e₁)) := by
  constructor
  · intro r e₁ h
    obtain ⟨hslot, p, hp⟩ := ellipse_ok_slot lib e r e₁ h
    subst hp
    exact ellipse_of_cached lib e₁ p hslot.symm
  · intro hnone
    obtain ⟨g, e₁, hg⟩ := generate_ellipse_isOk lib e DEFAULT_ELLIPSE_RESOLUTION true
    have hs := generate_ellipse_state lib e DEFAULT_ELLIPSE_RESOLUTION true g e₁ hg
    simp only [if_pos] at hs
    refine ⟨g, e₁, hg, hs, ?_⟩
    unfold Ellipse.ellipse
    rw [hnone, hg, hs]

/-- Witness for C4: a first `ellipse` read on the concrete entity with an
empty cache slot computes, stores and returns the polygon. -/
theorem C4_lazy_cache_witness :
    ∃ g e₁,
      Ellipse.generate_ellipse testLib testEllipse DEFAULT_ELLIPSE_RESOLUTION true =
          Except.ok (g, e₁) ∧
        e₁ = { testEllipse with _ellipse := some g } ∧
        Ellipse.ellipse testLib testEllipse = Except.ok (some g, e₁) :=
  (C4_lazy_cache testLib testEllipse).2 rfl

/-- The polygon returned by `generate_ellipse` is exactly the successful
result of the reprojection pipeline, regardless of the `cache` flag. -/
theorem generate_ellipse_fst (lib : GeoLib) (e : Ellipse) (res : ℤ) (cache : Bool) :
    (Ellipse.generate_ellipse lib e res cache).map Prod.fst =
      OptimalReprojector.apply_geometry lib (OptimalReprojector.init DEFAULT_EPSG_CRS)
        (Geometry.point e.centroid)
        (Ellipse.utm_ellipse_op lib e.semi_major e.semi_minor e.orientation res) := by
  unfold Ellipse.generate_ellipse
  cases OptimalReprojector.apply_geometry lib (OptimalReprojector.init DEFAULT_EPSG_CRS)
      (Geometry.point e.centroid)
      (Ellipse.utm_ellipse_op lib e.semi_major e.semi_minor e.orientation res) with
  | error er => rfl
  | ok g => rfl

/-- C5: `generate_ellipse` always returns the freshly computed polygon — the
returned value does not depend on the cache slot's prior content nor on the
`cache` flag; with `cache=True` the post-call slot holds exactly the new
result; with `cache=False` the entity is left completely unchanged, so a
subsequent `ellipse` read is unaffected by the non-persisted regeneration. -/
theorem C5_regenerate (lib : GeoLib) (e : Ellipse) (res : ℤ) :
    (∀ slot₁ slot₂ cache₁ cache₂,
       (Ellipse.generate_ellipse lib { e with _ellipse := slot₁ } res cache₁).map Prod.fst =
       (Ellipse.generate_ellipse lib { e with _ellipse := slot₂ } res cache₂).map Prod.fst) ∧
    (∀ g e₂, Ellipse.generate_ellipse lib e res true = Except.ok (g, e₂) →
       e₂._ellipse = some g) ∧
    (∀ g e₂, Ellipse.generate_ellipse lib e res false = Except.ok (g, e₂) →
       e₂ = e ∧ Ellipse.ellipse lib e₂ = Ellipse.ellipse lib e) := by
  refine ⟨?_, ?_, ?_⟩
  · intro slot₁ slot₂ cache₁ cache₂
    rw [generate_ellipse_fst, generate_ellipse_fst]
  · intro g e₂ h
    have hs := generate_ellipse_state lib e res true g e₂ h
    simp only [if_pos] at hs
    rw [hs]
  · intro g e₂ h
    have hs := generate_ellipse_state lib e res false g e₂ h
    simp at hs
    subst hs
    exact ⟨rfl, rfl⟩

/-- Concrete evaluation used by witnesses: regenerating the test entity
without persisting returns the scaled polygon (unit circle samples scaled by
3704 and 1852 meters) and leaves the entity unchanged. -/
theorem testEllipse_generate_eval :
    Ellipse.generate_ellipse testLib testEllipse DEFAULT_ELLIPSE_RESOLUTION false =
      Except.ok (testPolygon, testEllipse) := by
  simp [Ellipse.generate_ellipse, OptimalReprojector.apply_geometry,
    OptimalReprojector.get_optimal_transformers, OptimalReprojector.init,
    OptimalReprojector._determine_optimal_crs, pyInt, Transformer.from_crs,
    Ellipse.utm_ellipse_op, Ellipse._generate_utm_ellipse, affinity_scale,
    point_buffer, polyBoundsCenter, shapely_transform, testLib, testEllipse,
    testPolygon, Quantity.toMeters, DEFAULT_EPSG_CRS, DEFAULT_ELLIPSE_RESOLUTION,
    DEFAULT_ELLIPSE_ORIENTATION]
  norm_num

/-- Witness for C5: the concrete entity regenerated without persisting is
returned unchanged, and the fresh polygon is independent of the slot state
and of the flag. -/
theorem C5_regenerate_witness :
    ((Ellipse.generate_ellipse testLib { testEllipse with _ellipse := none }
        DEFAULT_ELLIPSE_RESOLUTION true).map Prod.fst =
      (Ellipse.generate_ellipse testLib { testEllipse with _ellipse := some testPolygon }
        DEFAULT_ELLIPSE_RESOLUTION false).map Prod.fst) ∧
    (testEllipse = testEllipse ∧
      Ellipse.ellipse testLib testEllipse = Ellipse.ellipse testLib testEllipse) :=
  ⟨(C5_regenerate testLib testEllipse DEFAULT_ELLIPSE_RESOLUTION).1
      none (some testPolygon) true false,
    (C5_regenerate testLib testEllipse DEFAULT_ELLIPSE_RESOLUTION).2.2
      testPolygon testEllipse testEllipse_generate_eval⟩

/-- C10: `generate_ellipse` never changes the entity's `centroid`,
`semi_major`, `semi_minor` or `orientation`; with `cache=False` it changes no
field at all, and with `cache=True` the only write is the `_ellipse` cache
slot, which receives the returned polygon. -/
theorem C10_generate_preserves_fields (lib : GeoLib) (e : Ellipse) (res : ℤ)
    (cache : Bool) :
    ∀ g e₂, Ellipse.generate_ellipse lib e res cache = Except.ok (g, e₂) →
      e₂.centroid = e.centroid ∧ e₂.semi_major = e.semi_major ∧
      e₂.semi_minor = e.semi_minor ∧ e₂.orientation = e.orientation ∧
      (cache = false → e₂ = e) ∧
      (cache = true → e₂ = { e with _ellipse := some g }) := by
  intro g e₂ h
  have hs := generate_ellipse_state lib e res cache g e₂ h
  cases cache with
  | false =>
    simp at hs
    subst hs
    exact ⟨rfl, rfl, rfl, rfl, fun _ => rfl, fun hc => absurd hc (by simp)⟩
  | true =>
    simp only [if_pos] at hs
    subst hs
    exact ⟨rfl, rfl, rfl, rfl, fun hc => absurd hc (by simp), fun _ => rfl⟩

/-- Witness for C10: the concrete entity is unchanged by a non-persisted
generation that returns the concrete polygon. -/
theorem C10_generate_preserves_fields_witness :
    testEllipse.centroid = testEllipse.centroid ∧
    testEllipse.semi_major = testEllipse.semi_major ∧
    testEllipse.semi_minor = testEllipse.semi_minor ∧
    testEllipse.orientation = testEllipse.orientation ∧
    (false = false → testEllipse = testEllipse) ∧
    (false = true → testEllipse = { testEllipse with _ellipse := some testPolygon }) :=
  C10_generate_preserves_fields testLib testEllipse DEFAULT_ELLIPSE_RESOLUTION false
    testPolygon testEllipse testEllipse_generate_eval

/-- C6 counterexample: the claim says a nonzero orientation rotates the
scaled polygon using the CLOCKWISE convention.  At orientation 90 degrees
(whose cosine is 0 and sine is 1, the values `testLib` supplies) on a unit
ellipse at the origin, the code's result differs from the clockwise rotation
of the scaled polygon: the code sends the vertex (1, 0) to (0, 1) — a
counterclockwise quarter turn — while a clockwise quarter turn sends it to
(0, -1). -/
theorem C6_clockwise_counterexample :
    Ellipse._generate_utm_ellipse testLib { x := 0, y := 0 }
        { magnitude := 1, unit := LengthUnit.meter }
        { magnitude := 1, unit := LengthUnit.meter } 90 8 ≠
      rotate_clockwise 0 1 (affinity_scale 1 1
        (point_buffer testLib { x := 0, y := 0 } 1 8)) := by
  intro h
  have h0 := congrArg (fun l => l.head?) h
  simp [Ellipse._generate_utm_ellipse, affinity_rotate, rotate_clockwise,
    affinity_scale, point_buffer, polyBoundsCenter, testLib, Quantity.toMeters,
    DEFAULT_ELLIPSE_ORIENTATION] at h0
  norm_num at h0

/-- C6 amended: for every nonzero orientation the construction rotates the
scaled polygon about its bounding-box center (which coincides with the
centroid for the symmetric scaled buffer) by `orientation` degrees using the
COUNTERCLOCKWISE convention for positive angles (shapely's convention); the
angle value itself is carried from the input unchanged. -/
theorem C6_rotation_counterclockwise (lib : GeoLib) (c : Point)
    (sm sn : Quantity) (ori : ℚ) (res : ℤ) (h : ori ≠ 0) :
    Ellipse._generate_utm_ellipse lib c sm sn ori res =
      affinity_rotate lib ori (affinity_scale sm.toMeters sn.toMeters
        (point_buffer lib c 1 res)) ∧
    (∀ poly, affinity_rotate lib ori poly =
      poly.map fun v =>
        { x := (polyBoundsCenter poly).x
            + lib.cosd ori * (v.x - (polyBoundsCenter poly).x)
            - lib.sind ori * (v.y - (polyBoundsCenter poly).y),
          y := (polyBoundsCenter poly).y
            + lib.sind ori * (v.x - (polyBoundsCenter poly).x)
            + lib.cosd ori * (v.y - (polyBoundsCenter poly).y) } : Prop) := by
  constructor
  · simp only [Ellipse._generate_utm_ellipse, DEFAULT_ELLIPSE_ORIENTATION]
    rw [if_neg h]
  · intro poly
    rfl

/-- Witness for C6 amended: the 90-degree construction on the concrete data
equals the counterclockwise rotation of the scaled polygon. -/
theorem C6_rotation_counterclockwise_witness :
    Ellipse._generate_utm_ellipse testLib { x := 0, y := 0 }
        { magnitude := 1, unit := LengthUnit.meter }
        { magnitude := 1, unit := LengthUnit.meter } 90 8 =
      affinity_rotate testLib 90 (affinity_scale
        (Quantity.toMeters { magnitude := 1, unit := LengthUnit.meter })
        (Quantity.toMeters { magnitude := 1, unit := LengthUnit.meter })
        (point_buffer testLib { x := 0, y := 0 } 1 8)) :=
  (C6_rotation_counterclockwise testLib { x := 0, y := 0 }
    { magnitude := 1, unit := LengthUnit.meter }
    { magnitude := 1, unit := LengthUnit.meter } 90 8 (by norm_num)).1

/-- C7: the in-frame operation buffers the projected centroid with radius 1
at the given resolution density, then scales anisotropically with x-factor
`semi_major` in meters and y-factor `semi_minor` in meters (rotating
afterwards only for nonzero orientation); the scale step multiplies each
vertex offset from the bounding-box center by exactly those factors, and a
quantity of q nautical miles converts to exactly 1852·q meters. -/
theorem C7_buffer_scale_units (lib : GeoLib) (c : Point) (sm sn : Quantity)
    (ori : ℚ) (res : ℤ) :
    Ellipse._generate_utm_ellipse lib c sm sn ori res =
      (if ori = 0 then id else affinity_rotate lib ori)
        (affinity_scale sm.toMeters sn.toMeters (point_buffer lib c 1 res)) ∧
    point_buffer lib c 1 res =
      (lib.circle (4 * res).toNat).map
        (fun u => { x := c.x + u.x, y := c.y + u.y }) ∧
    (∀ poly, affinity_scale sm.toMeters sn.toMeters poly =
      poly.map fun v =>
        { x := (polyBoundsCenter poly).x
            + sm.toMeters * (v.x - (polyBoundsCenter poly).x),
          y := (polyBoundsCenter poly).y
            + sn.toMeters * (v.y - (polyBoundsCenter poly).y) } : Prop) ∧
    (∀ q : ℚ, Quantity.toMeters { magnitude := q, unit := LengthUnit.nautical_mile } =
      1852 * q) := by
  refine ⟨?_, ?_, fun poly => rfl, fun q => by simp [Quantity.toMeters, mul_comm]⟩
  · by_cases h : ori = 0
    · subst h
      simp [Ellipse._generate_utm_ellipse, DEFAULT_ELLIPSE_ORIENTATION]
    · simp only [Ellipse._generate_utm_ellipse, DEFAULT_ELLIPSE_ORIENTATION]
      rw [if_neg h, if_neg h]
  · simp [point_buffer]

/-- C8: the transformer-pair builder resolves the optimal frame from the
geometry itself when it is a point and from its centroid otherwise, returns
no pair exactly when the resolved optimal frame equals the input frame, and
otherwise returns the forward (input → optimal) and inverse
(optimal → input) transformer pair, both built with the fixed
(x/longitude, y/latitude) axis order flag. -/
theorem C8_transformer_pair_structure (lib : GeoLib) (self : OptimalReprojector)
    (geom : Geometry) :
    (∀ p, anchor_point (Geometry.point p) = p) ∧
    (∀ ring, anchor_point (Geometry.polygon ring) = shapely_centroid ring) ∧
    (OptimalReprojector.get_optimal_transformers lib self geom = none ↔
      OptimalReprojector._determine_optimal_crs self (anchor_point geom) =
        self.input_crs) ∧
    (OptimalReprojector.get_optimal_transformers lib self geom =
      if OptimalReprojector._determine_optimal_crs self (anchor_point geom) =
          self.input_crs then none
      else
        some
          ({ src := self.input_crs,
             dst := OptimalReprojector._determine_optimal_crs self (anchor_point geom),
             always_xy := true,
             transform := lib.proj self.input_crs
               (OptimalReprojector._determine_optimal_crs self (anchor_point geom)) },
           { src := OptimalReprojector._determine_optimal_crs self (anchor_point geom),
             dst := self.input_crs,
             always_xy := true,
             transform := lib.proj
               (OptimalReprojector._determine_optimal_crs self (anchor_point geom))
               self.input_crs })) := by
  have hanchor : (match geom with | Geometry.point p => p | g => Geometry.centroid g) =
      anchor_point geom := by
    cases geom <;> rfl
  refine ⟨fun p => rfl, fun ring => rfl, ?_, ?_⟩
  · simp only [OptimalReprojector.get_optimal_transformers]
    rw [hanchor]
    by_cases hopt : OptimalReprojector._determine_optimal_crs self
        (anchor_point geom) = self.input_crs
    · rw [if_pos hopt]
      simp [hopt]
    · rw [if_neg hopt]
      simp [hopt]
  · simp only [OptimalReprojector.get_optimal_transformers, Transformer.from_crs]
    rw [hanchor]

/-- C9: constructing with orientation 0 produces, vertex for vertex, the
same polygon as the construction with the rotation step explicitly
skipped. -/
theorem C9_orientation_zero_skips_rotation (lib : GeoLib) (c : Point)
    (sm sn : Quantity) (res : ℤ) :
    Ellipse._generate_utm_ellipse lib c sm sn 0 res =
      generate_utm_ellipse_skip_rotation lib c sm sn res := by
  simp [Ellipse._generate_utm_ellipse, generate_utm_ellipse_skip_rotation,
    DEFAULT_ELLIPSE_ORIENTATION]
